import Mathlib

/-!
# Verification of the Token Usage Tracker core (src/index.js)

Shallow embedding of the data model and the operations of the
token-usage-tracker extension: the usage store (`recordUsage`, `resetSession`,
`resetAllUsage`), the bucket-key derivation (`getDayKey`, `getHourKey`,
`getWeekKey`, `getMonthKey`), the price resolver (`getModelPrice`), the
data transfer pair (`exportUsageData`, `importUsageData`), and the
generation-lifecycle finalization paths (`handleMessageReceived`,
`handleGenerationStopped`, `handleBackgroundGeneration`, the patched
`sendRequest`).

Conventions used throughout:
* JavaScript objects whose counter fields may be absent are modelled with
  plain `Nat` fields: every read of such a field in the source goes through
  a `|| 0` coalescing (see `addTokens` in src/index.js, lines 318-324, and
  every display site), so an absent field is observationally the value 0.
  Where the absent/present distinction is load-bearing it is called out in
  the corresponding doc comment.
* JavaScript string-keyed objects are modelled as association lists
  `List (String × α)` in insertion order, with `alGet`/`alSet` mirroring
  property read and property assignment.
* Token counts are `Nat` (they are produced by tokenizers and are
  non-negative); `Math.max(0, a - b)` on such numbers coincides with
  truncated `Nat` subtraction, and the theorems restate the clamp through
  an `Int` cast where the spec phrases it as `max 0 (a - b)`.
-/

/-- Property read `obj[k]` on a string-keyed JS object modelled as an
association list: the value at the first matching key, if any. -/
def alGet {α : Type} (l : List (String × α)) (k : String) : Option α :=
  match l with
  | [] => none
  | (k0, v) :: rest => if k0 = k then some v else alGet rest k

/-- Property assignment `obj[k] = v`: replaces the first entry with key `k`,
or appends a new entry (JS objects keep insertion order). -/
def alSet {α : Type} (l : List (String × α)) (k : String) (v : α) :
    List (String × α) :=
  match l with
  | [] => [(k, v)]
  | (k0, v0) :: rest =>
      if k0 = k then (k0, v) :: rest else (k0, v0) :: alSet rest k v

/-- The keys of an association list, in order. -/
def alKeys {α : Type} (l : List (String × α)) : List String :=
  l.map Prod.fst


/-! ## Calendar arithmetic

`getWeekKey` (src/index.js lines 227-235) works on the Eastern calendar date
`(year, month, day)` extracted by `getEasternParts` and turns it into a UTC
timestamp via `Date.UTC`.  We model the date arithmetic with the standard
civil-calendar day numbering (days since the epoch 1970-01-01), which is
exactly what the millisecond arithmetic in the source computes. -/

/-- Days since 1970-01-01 of the civil date `(y, m, d)` (valid for `y ≥ 1`,
`1 ≤ m ≤ 12`); the value `Date.UTC(y, m-1, d) / 86400000` in the source. -/
def daysFromCivil (y m d : Nat) : Int :=
  let yy := if m ≤ 2 then y - 1 else y
  let era := yy / 400
  let yoe := yy % 400
  let mp := if m > 2 then m - 3 else m + 9
  let doy := (153 * mp + 2) / 5 + d - 1
  let doe := yoe * 365 + yoe / 4 - yoe / 100 + doy
  ((era * 146097 + doe : Nat) : Int) - 719468

/-- `Date.prototype.getUTCDay` of the civil date: 0 = Sunday … 6 = Saturday
(1970-01-01 was a Thursday, day 4). -/
def utcDayOfWeek (y m d : Nat) : Nat :=
  ((daysFromCivil y m d + 4) % 7).toNat

/-- `String(n).padStart(2, '0')` for the two-digit key components. -/
def pad2 (n : Nat) : String :=
  if n < 10 then "0" ++ toString n else toString n

/-- The Eastern-timezone date parts `{year, month, day, hour}` produced by
`getEasternParts` in the source; the current time enters the store
operations only through these parts. -/
structure DateParts where
  year : Nat
  month : Nat
  day : Nat
  hour : Nat
deriving Repr, DecidableEq

/-- `getDayKey`: the `YYYY-MM-DD` day bucket key (src/index.js 211-214). -/
def getDayKey (p : DateParts) : String :=
  toString p.year ++ "-" ++ pad2 p.month ++ "-" ++ pad2 p.day

/-- `getHourKey`: the `YYYY-MM-DDTHH` hour bucket key (src/index.js 219-222). -/
def getHourKey (p : DateParts) : String :=
  getDayKey p ++ "T" ++ pad2 p.hour

/-- `getWeekKey` (src/index.js 227-235), verbatim: the 0-based day-of-year
difference `days`, then `weekNumber = Math.ceil((days + jan1.getUTCDay() + 1)
/ 7)`, formatted as `YYYY-WNN`.  Note this is the ad hoc week count anchored
at January 1, not ISO-8601. -/
def getWeekKey (p : DateParts) : String :=
  let days := (daysFromCivil p.year p.month p.day -
    daysFromCivil p.year 1 1).toNat
  let weekNumber := (days + utcDayOfWeek p.year 1 1 + 1 + 6) / 7
  toString p.year ++ "-W" ++ pad2 weekNumber

/-- `getMonthKey`: the `YYYY-MM` month bucket key (src/index.js 240-243). -/
def getMonthKey (p : DateParts) : String :=
  toString p.year ++ "-" ++ pad2 p.month

/-- Inverse of `daysFromCivil`: the civil date `(y, m, d)` of a day number
(valid for day numbers at or after the year 1 boundary). -/
def civilFromDays (z : Int) : Nat × Nat × Nat :=
  let zz := (z + 719468).toNat
  let era := zz / 146097
  let doe := zz % 146097
  let yoe := (doe - doe / 1460 + doe / 36524 - doe / 146096) / 365
  let y := yoe + era * 400
  let doy := doe - (365 * yoe + yoe / 4 - yoe / 100)
  let mp := (5 * doy + 2) / 153
  let d := doy - (153 * mp + 2) / 5 + 1
  let m := if mp < 10 then mp + 3 else mp - 9
  (if m ≤ 2 then y + 1 else y, m, d)

/-- Modelled from the spec: the ISO-8601 week key `YYYY-Www` demanded by §4.2
("week 1 is the week containing the year's first Thursday; weeks run
Monday-Sunday").  The source has no ISO implementation (its `getWeekKey` is
the January-1-anchored count above); this definition exists to state what the
spec requires of the week bucket key.  Standard ISO algorithm: move to the
Thursday of the date's week; that Thursday's year is the ISO year and its
0-based day-of-year divided by 7, plus 1, is the week number. -/
def isoWeekKey (p : DateParts) : String :=
  let z := daysFromCivil p.year p.month p.day
  let dowMon1 := ((z + 3) % 7).toNat + 1
  let thursday := z + (4 - (dowMon1 : Int))
  let c := civilFromDays thursday
  let isoYear := c.1
  let doy := (thursday - daysFromCivil isoYear 1 1).toNat
  let week := doy / 7 + 1
  toString isoYear ++ "-W" ++ pad2 week

/-! ## The usage store -/

/-- A nested per-model breakdown entry `{input, output, total}` (inside day
and hour buckets, src/index.js 341, 364, 381). -/
structure ModelBucket where
  input : Nat
  output : Nat
  total : Nat
deriving Repr, DecidableEq

/-- A nested per-source breakdown entry.  In the day bucket it is
`{input, output, total, models}` (line 353); in the hour bucket it is created
without `models` (line 393) and the hour path never touches `models`, which
is therefore the empty map there. -/
structure SourceBucket where
  input : Nat
  output : Nat
  total : Nat
  models : List (String × ModelBucket)
deriving Repr, DecidableEq

/-- A `UsageBucket`.  The counter fields mirror the JS object; fields the
various initializers omit (e.g. `reasoning` in the day/week/month/chat/model/
source initializers) are uniformly read back as 0 in the source (`|| 0`), so
they are carried here as `Nat` with value 0.  `models`/`sources` are the
nested breakdowns, present only on day and hour buckets and empty (and never
touched) elsewhere. -/
structure Bucket where
  input : Nat
  output : Nat
  reasoning : Nat
  total : Nat
  messageCount : Nat
  models : List (String × ModelBucket)
  sources : List (String × SourceBucket)
deriving Repr, DecidableEq

/-- The all-zero bucket: every initializer in the source
(`{ input: 0, output: 0, total: 0, messageCount: 0, ... }`). -/
def Bucket.zero : Bucket := ⟨0, 0, 0, 0, 0, [], []⟩

/-- The `usage` subtree of the settings blob (src/index.js 125-139).
`sessionStart` models `usage.session.startTime` (an ISO string in JS,
an abstract timestamp here). -/
structure Usage where
  session : Bucket
  sessionStart : Nat
  allTime : Bucket
  byDay : List (String × Bucket)
  byHour : List (String × Bucket)
  byWeek : List (String × Bucket)
  byMonth : List (String × Bucket)
  byChat : List (String × Bucket)
  byModel : List (String × Bucket)
  bySource : List (String × Bucket)
deriving Repr, DecidableEq

/-- A user-configured model price `{in, out}` per 1M tokens
(`defaultSettings.modelPrices`); components are exact rationals standing for
the JS numbers. -/
structure Price where
  inPrice : Rat
  outPrice : Rat
deriving Repr, DecidableEq

/-- The extension settings blob: `usage` plus the `modelPrices` and
`modelColors` maps (the parts the verified operations touch). -/
structure Settings where
  usage : Usage
  modelPrices : List (String × Price)
  modelColors : List (String × String)
deriving Repr, DecidableEq

/-- `defaultSettings.usage` with a given session start time: the zero state
produced by `resetAllUsage`. -/
def Usage.zero (t : Nat) : Usage :=
  ⟨Bucket.zero, t, Bucket.zero, [], [], [], [], [], [], []⟩

/-- The `addTokens` closure inside `recordUsage` (src/index.js 318-324):
adds the input/output/reasoning counts and the precomputed
`totalTokens = inputTokens + outputTokens + reasoningTokens`, and bumps
`messageCount`; every field is read with `|| 0`. -/
def addTokens (b : Bucket) (i o r : Nat) : Bucket :=
  { b with
    input := b.input + i
    output := b.output + o
    reasoning := b.reasoning + r
    total := b.total + (i + o + r)
    messageCount := b.messageCount + 1 }

/-- The per-model nested update `modelData.input += ...` etc.
(src/index.js 343-346): no `messageCount`, total adds `totalTokens`. -/
def addModelTokens (mb : ModelBucket) (i o r : Nat) : ModelBucket :=
  ⟨mb.input + i, mb.output + o, mb.total + (i + o + r)⟩

/-- The day-bucket update of one `recordUsage` call: `addTokens` on the
bucket, then the optional nested per-model, per-source and
per-source-per-model updates (src/index.js 334-370). -/
def updateDayBucket (b : Bucket) (i o r : Nat)
    (modelId sourceId : Option String) : Bucket :=
  let b := addTokens b i o r
  let b := match modelId with
    | none => b
    | some m =>
        let mb := addModelTokens ((alGet b.models m).getD ⟨0, 0, 0⟩) i o r
        { b with models := alSet b.models m mb }
  match sourceId with
  | none => b
  | some sid =>
      let sd := (alGet b.sources sid).getD ⟨0, 0, 0, []⟩
      let sd := { sd with
        input := sd.input + i
        output := sd.output + o
        total := sd.total + (i + o + r) }
      let sd := match modelId with
        | none => sd
        | some m =>
            let mb := addModelTokens ((alGet sd.models m).getD ⟨0, 0, 0⟩) i o r
            { sd with models := alSet sd.models m mb }
      { b with sources := alSet b.sources sid sd }

/-- The hour-bucket update of one `recordUsage` call: `addTokens`, optional
per-model breakdown, and a per-source breakdown without a nested model map
(src/index.js 374-399). -/
def updateHourBucket (b : Bucket) (i o r : Nat)
    (modelId sourceId : Option String) : Bucket :=
  let b := addTokens b i o r
  let b := match modelId with
    | none => b
    | some m =>
        let mb := addModelTokens ((alGet b.models m).getD ⟨0, 0, 0⟩) i o r
        { b with models := alSet b.models m mb }
  match sourceId with
  | none => b
  | some sid =>
      let sd := (alGet b.sources sid).getD ⟨0, 0, 0, []⟩
      let sd := { sd with
        input := sd.input + i
        output := sd.output + o
        total := sd.total + (i + o + r) }
      { b with sources := alSet b.sources sid sd }

/-- `recordUsage(inputTokens, outputTokens, chatId, modelId, sourceId,
reasoningTokens)` (src/index.js 312-438): the single mutation entry point.
`now` is the Eastern date-part snapshot `getCurrentEasternTime()` taken at
call time.  Updates session, allTime, the keyed day/hour/week/month buckets
(creating them zeroed on demand), and — only when the respective id is
non-null — the byChat/byModel/bySource buckets. -/
def recordUsage (i o : Nat) (chatId modelId sourceId : Option String)
    (r : Nat) (now : DateParts) (s : Settings) : Settings :=
  let u := s.usage
  let u := { u with
    session := addTokens u.session i o r
    allTime := addTokens u.allTime i o r }
  let dayKey := getDayKey now
  let db := updateDayBucket ((alGet u.byDay dayKey).getD Bucket.zero)
    i o r modelId sourceId
  let u := { u with byDay := alSet u.byDay dayKey db }
  let hourKey := getHourKey now
  let hb := updateHourBucket ((alGet u.byHour hourKey).getD Bucket.zero)
    i o r modelId sourceId
  let u := { u with byHour := alSet u.byHour hourKey hb }
  let weekKey := getWeekKey now
  let wb := addTokens ((alGet u.byWeek weekKey).getD Bucket.zero) i o r
  let u := { u with byWeek := alSet u.byWeek weekKey wb }
  let monthKey := getMonthKey now
  let mb := addTokens ((alGet u.byMonth monthKey).getD Bucket.zero) i o r
  let u := { u with byMonth := alSet u.byMonth monthKey mb }
  let u := match chatId with
    | none => u
    | some cid =>
        let cb := addTokens ((alGet u.byChat cid).getD Bucket.zero) i o r
        { u with byChat := alSet u.byChat cid cb }
  let u := match modelId with
    | none => u
    | some mid =>
        let mob := addTokens ((alGet u.byModel mid).getD Bucket.zero) i o r
        { u with byModel := alSet u.byModel mid mob }
  let u := match sourceId with
    | none => u
    | some sid =>
        let sb := addTokens ((alGet u.bySource sid).getD Bucket.zero) i o r
        { u with bySource := alSet u.bySource sid sb }
  { s with usage := u }

/-- `resetSession` (src/index.js 443-455): replaces the session bucket with a
fresh all-zero object carrying the new `startTime` (the JS literal omits the
`reasoning` key, which every read coalesces to 0) and touches nothing else. -/
def resetSession (t : Nat) (s : Settings) : Settings :=
  { s with usage := { s.usage with session := Bucket.zero, sessionStart := t } }

/-- `resetAllUsage` (src/index.js 460-467): replaces the whole `usage`
subtree with a clone of `defaultSettings.usage` and a fresh session
start time. -/
def resetAllUsage (t : Nat) (s : Settings) : Settings :=
  { s with usage := Usage.zero t }

/-- `getModelPrice(modelId)` (src/index.js 1210-1213):
`settings.modelPrices[modelId] || { in: 0, out: 0 }`.  A stored entry is a JS
object and hence truthy, so the right branch is taken exactly when the key is
absent.  Note the source consults only `modelPrices`; it reads no external
price catalog. -/
def getModelPrice (modelPrices : List (String × Price)) (modelId : String) :
    Price :=
  (alGet modelPrices modelId).getD ⟨0, 0⟩

/-- Modelled from the spec (§4.3 `getPrice` and §8 "Price resolution
priority"); this resolution chain is NOT in the source, whose
`getModelPrice` reads only `modelPrices`: user-configured price if present;
else the cached external catalog per-token price converted to per-million by
multiplying by 1,000,000; else zero. -/
def specGetPrice (modelPrices : List (String × Price))
    (catalog : List (String × Price)) (modelId : String) : Price :=
  match alGet modelPrices modelId with
  | some p => p
  | none =>
      match alGet catalog modelId with
      | some raw => ⟨raw.inPrice * 1000000, raw.outPrice * 1000000⟩
      | none => ⟨0, 0⟩

/-! ## Import / export -/

/-- The literal `extensionName` constant of the source. -/
def extensionName : String := "token-usage-tracker"

/-- The export payload produced by `exportUsageData` (src/index.js 1277-1287)
after the JSON round trip the import path performs: `{version, exportDate,
extensionName, usage, modelPrices, modelColors}`.  `extensionTag` is `Option`
because `importUsageData` accepts payloads without the field. -/
structure ExportData where
  version : String
  exportDate : Nat
  extensionTag : Option String
  usage : Usage
  modelPrices : List (String × Price)
  modelColors : List (String × String)
deriving Repr, DecidableEq

/-- `exportUsageData` (src/index.js 1277-1287). -/
def exportUsageData (s : Settings) (exportDate : Nat) : ExportData :=
  ⟨"1.0", exportDate, some extensionName, s.usage, s.modelPrices,
    s.modelColors⟩

/-- The additive part of the byDay / byHour merge of `importUsageData`
(src/index.js 1325-1328 and 1339-1342): add `input`, `output`, `total` and
`messageCount` of the incoming bucket onto the existing one — and nothing
else: the existing bucket keeps its own `reasoning`, `models` and
`sources`. -/
def mergeAddCounters (b inc : Bucket) : Bucket :=
  { b with
    input := b.input + inc.input
    output := b.output + inc.output
    total := b.total + inc.total
    messageCount := b.messageCount + inc.messageCount }

/-- One step of the byDay / byHour merge loop of `importUsageData`
(src/index.js 1320-1330 and 1335-1344): insert the incoming bucket wholesale
when the key is new, otherwise `mergeAddCounters` onto the existing one. -/
def mergeBucketStep (acc : List (String × Bucket)) (kv : String × Bucket) :
    List (String × Bucket) :=
  match alGet acc kv.1 with
  | none => alSet acc kv.1 kv.2
  | some b => alSet acc kv.1 (mergeAddCounters b kv.2)

/-- The `for (const [key, data] of Object.entries(...))` merge loop, run over
the incoming map with the stored map as accumulator. -/
def mergeBucketMap (existing incoming : List (String × Bucket)) :
    List (String × Bucket) :=
  incoming.foldl mergeBucketStep existing

/-- `Object.assign(target, source)`: every source entry overwrites (or
creates) the target entry of the same key, in source order. -/
def assignAll {α : Type} (target source : List (String × α)) :
    List (String × α) :=
  source.foldl (fun acc kv => alSet acc kv.1 kv.2) target

/-- The mutation part of `importUsageData`: byDay/byHour additive merge plus
price/color overwrite (src/index.js 1318-1355).  Session data is never
pulled in (the `data.usage.session` block, lines 1314-1316, is empty); only
`byDay` and `byHour` are merged from the usage tree; `modelPrices` and
`modelColors` are merged by `Object.assign` overwrite. -/
def importMerge (data : ExportData) (s : Settings) : Settings :=
  let u := s.usage
  let u := { u with byDay := mergeBucketMap u.byDay data.usage.byDay }
  let u := { u with byHour := mergeBucketMap u.byHour data.usage.byHour }
  { s with
    usage := u
    modelPrices := assignAll s.modelPrices data.modelPrices
    modelColors := assignAll s.modelColors data.modelColors }

/-- `importUsageData` (src/index.js 1294-1364) after JSON parsing: version
and extension-identity validation, then the merge.  Errors are thrown in JS;
here the result is `Except` with the thrown message. -/
def importUsageData (data : ExportData) (s : Settings) :
    Except String Settings :=
  if data.version = "" then
    Except.error "Invalid export format. Missing required fields."
  else
    match data.extensionTag with
    | some tag =>
        if tag ≠ extensionName then
          Except.error "Data was exported from a different extension"
        else
          Except.ok (importMerge data s)
    | none => Except.ok (importMerge data s)

/-! ## Generation lifecycle finalization

The module-level in-flight context of the tracker
(`pendingInputTokensPromise`, `pendingModelId`, `pendingSourceId`,
`preContinueTokenCount`, src/index.js 550-555).  The pending promise never
rejects (it carries a `.catch` returning 0), so its awaited value is
modelled as the `Nat` it resolves to. -/
structure PendingCtx where
  pendingInput : Option Nat
  pendingModel : Option String
  pendingSource : Option String
  preContinue : Nat
deriving Repr, DecidableEq

/-- A call to `recordUsage` with its arguments, used to state
"exactly one record" properties and the C8 summation. -/
structure RecordCall where
  input : Nat
  output : Nat
  chatId : Option String
  modelId : Option String
  sourceId : Option String
  reasoning : Nat
  now : DateParts
deriving Repr, DecidableEq

/-- Apply one logged `recordUsage` call to the settings. -/
def applyCall (s : Settings) (c : RecordCall) : Settings :=
  recordUsage c.input c.output c.chatId c.modelId c.sourceId c.reasoning
    c.now s

/-- Apply a sequence of `recordUsage` calls in order. -/
def applyCalls (calls : List RecordCall) (s : Settings) : Settings :=
  calls.foldl applyCall s

/-- The message object slice `handleMessageReceived` reads:
`message.mes`, `message.extra?.token_count`, `message.extra?.reasoning`.
`tokenCount` keeps the raw optional number (the source guards it with a
truthiness test, so `some 0` behaves like absent); `reasoningText` is the
raw optional string (truthiness-tested likewise). -/
structure ChatMessage where
  mes : String
  tokenCount : Option Nat
  reasoningText : Option String
deriving Repr, DecidableEq

/-- The token determination of `handleMessageReceived` (src/index.js
732-801), with the two external async counts supplied as parameters:
`countMes` is `countTokens(message.mes)` and `countReasoning` is
`countTokens(message.extra.reasoning)`.  Returns `none` when the handler
returns without recording (non-API event type, no in-flight context, or a
missing/empty message), and otherwise `some (input, output, reasoning)` —
the argument triple of the single `recordUsage` call it then makes. -/
def handleMessageReceivedTokens (message : Option ChatMessage) (typ : String)
    (pendingInput : Option Nat) (preContinue : Nat)
    (countMes countReasoning : Nat) : Option (Nat × Nat × Nat) :=
  if typ = "command" ∨ typ = "first_message" then none
  else
    match pendingInput with
    | none => none
    | some inputTokens =>
        match message with
        | none => none
        | some msg =>
            if msg.mes = "" then none
            else
              let reasoningTokens := match msg.reasoningText with
                | some rt => if rt = "" then 0 else countReasoning
                | none => 0
              let outputTokens := match msg.tokenCount with
                | some tc =>
                    if tc ≠ 0 then
                      if reasoningTokens > 0 ∧ tc > reasoningTokens then
                        tc - reasoningTokens
                      else tc
                    else countMes
                | none => countMes
              let outputTokens :=
                if typ = "continue" ∧ preContinue > 0 then
                  outputTokens - preContinue
                else outputTokens
              some (inputTokens, outputTokens, reasoningTokens)

/-- The streaming processor slice `handleGenerationStopped` reads:
`streamingProcessor.result` and
`streamingProcessor.reasoningHandler?.reasoning`, both truthiness-tested
strings. -/
structure StreamState where
  result : Option String
  reasoningText : Option String
deriving Repr, DecidableEq

/-- `handleGenerationStopped` (src/index.js 814-858), with the external
async counts supplied as parameters (`countResult` for
`countTokens(streamingProcessor.result)`, `countReasoning` for the partial
reasoning text).  Returns the new pending context, the new settings, and the
list of `recordUsage` calls made (by the code, at most one).  With no
in-flight context it is a no-op; otherwise the partial output (stream text
plus partial reasoning, folded into the output count) is recorded against
the awaited pending input count, and the pending context is cleared. -/
def handleGenerationStopped (ctx : PendingCtx) (stream : Option StreamState)
    (countResult countReasoning : Nat) (chatId : Option String)
    (now : DateParts) (s : Settings) :
    PendingCtx × Settings × List RecordCall :=
  match ctx.pendingInput with
  | none => (ctx, s, [])
  | some inputTokens =>
      let outputTokens := match stream with
        | none => 0
        | some st =>
            let o := match st.result with
              | some t => if t = "" then 0 else countResult
              | none => 0
            match st.reasoningText with
            | some rt => if rt = "" then o else o + countReasoning
            | none => o
      let call : RecordCall :=
        ⟨inputTokens, outputTokens, chatId, ctx.pendingModel,
          ctx.pendingSource, 0, now⟩
      (⟨none, none, none, 0⟩, applyCall s call, [call])

/-! ## Background generations and the recursion guard -/

/-- `handleBackgroundGeneration(originalFn, context, args, inputCounter,
outputCounter)` (src/index.js 3218-3258).  `guard` is the value of the
module-level `isTrackingBackground` flag on entry; `inputRes`, `origRes`
and `outputRes` are the outcomes of the awaited `inputCounter()`,
`originalFn.apply(...)` and `outputCounter(result)` calls (`Except` models
a JS throw).  The result is the flag value after the call finishes, the
call's own outcome as seen by the caller, the new settings, and the
`recordUsage` calls made. -/
def handleBackgroundGeneration {α : Type} (guard : Bool)
    (inputRes : Except String Nat) (origRes : Except String α)
    (outputRes : α → Except String Nat) (modelId sourceId : Option String)
    (now : DateParts) (s : Settings) :
    Bool × Except String α × Settings × List RecordCall :=
  if guard then
    (guard, origRes, s, [])
  else
    let inputTokens := match inputRes with
      | Except.ok n => n
      | Except.error _ => 0
    match origRes with
    | Except.error e => (false, Except.error e, s, [])
    | Except.ok r =>
        match outputRes r with
        | Except.error _ => (false, Except.ok r, s, [])
        | Except.ok outputTokens =>
            if outputTokens > 0 ∨ inputTokens > 0 then
              let call : RecordCall :=
                ⟨inputTokens, outputTokens, none, modelId, sourceId, 0, now⟩
              (false, Except.ok r, applyCall s call, [call])
            else (false, Except.ok r, s, [])

/-- The patched `ConnectionManagerRequestService.sendRequest`
(src/index.js 3163-3202).  Same protocol as `handleBackgroundGeneration`:
pass through when the guard is set; otherwise set the guard, count input
(errors fall back to 0), run the original request, count output from
`result.content` when the original succeeds (counting errors are swallowed),
record once if anything was counted, and reset the guard in the `finally`
block on every path.  `countContent` is the token count of the extracted
result text (`none` when the result has no string content). -/
def sendRequestTracked (guard : Bool) (inputRes : Except String Nat)
    (origRes : Except String (Option String)) (countContent : Option Nat)
    (modelId sourceId : Option String) (now : DateParts) (s : Settings) :
    Bool × Except String (Option String) × Settings × List RecordCall :=
  if guard then
    (guard, origRes, s, [])
  else
    let inputTokens := match inputRes with
      | Except.ok n => n
      | Except.error _ => 0
    match origRes with
    | Except.error e => (false, Except.error e, s, [])
    | Except.ok r =>
        let outputTokens := (countContent.getD 0)
        if outputTokens > 0 ∨ inputTokens > 0 then
          let call : RecordCall :=
            ⟨inputTokens, outputTokens, none, modelId, sourceId, 0, now⟩
          (false, Except.ok r, applyCall s call, [call])
        else (false, Except.ok r, s, [])

/-! ## Concrete sample data (used by witnesses and counterexamples) -/

/-- A store obtained from the empty default state by recording one exchange
with 1 input, 1 output and 1 reasoning token on Dec 31, 2024 (Eastern),
attributed to a chat, a model and a source. -/
def sampleRecorded : Settings :=
  recordUsage 1 1 (some "chat1") (some "gpt-4o") (some "openai") 1
    ⟨2024, 12, 31, 5⟩ ⟨Usage.zero 0, [], []⟩

/-- The result of importing a store's own export back into it (the §8
round-trip scenario), `none` when the import is rejected. -/
def importedSelf (s : Settings) : Option Settings :=
  match importUsageData (exportUsageData s 0) s with
  | Except.ok s2 => some s2
  | Except.error _ => none

/-! ## Association-list lemmas -/

theorem alGet_alSet_self {α : Type} (l : List (String × α)) (k : String)
    (v : α) : alGet (alSet l k v) k = some v := by
  induction l with
  | nil => simp [alGet, alSet]
  | cons hd tl ih =>
      obtain ⟨k0, v0⟩ := hd
      by_cases h : k0 = k <;> simp [alGet, alSet, h, ih]

theorem alGet_alSet_ne {α : Type} (l : List (String × α)) (k k2 : String)
    (v : α) (h : k2 ≠ k) : alGet (alSet l k v) k2 = alGet l k2 := by
  have hks : k ≠ k2 := Ne.symm h
  induction l with
  | nil => simp [alGet, alSet, hks]
  | cons hd tl ih =>
      obtain ⟨k0, v0⟩ := hd
      by_cases h0 : k0 = k
      · subst h0
        simp [alGet, alSet, hks]
      · by_cases h2 : k0 = k2 <;> simp [alGet, alSet, h0, h2, h, ih]

theorem alSet_of_get_eq {α : Type} (l : List (String × α)) (k : String)
    (v : α) (h : alGet l k = some v) : alSet l k v = l := by
  induction l with
  | nil => simp [alGet] at h
  | cons hd tl ih =>
      obtain ⟨k0, v0⟩ := hd
      by_cases h0 : k0 = k
      · subst h0
        simp [alGet] at h
        simp [alSet, h]
      · simp [alGet, h0] at h
        simp [alSet, h0, ih h]

theorem alGet_of_mem_nodup {α : Type} (l : List (String × α)) (k : String)
    (v : α) (hnd : (alKeys l).Nodup) (hmem : (k, v) ∈ l) :
    alGet l k = some v := by
  induction l with
  | nil => simp at hmem
  | cons hd tl ih =>
      obtain ⟨k0, v0⟩ := hd
      have hnd2 : k0 ∉ tl.map Prod.fst ∧ (alKeys tl).Nodup := by
        simpa [alKeys] using hnd
      rcases List.mem_cons.mp hmem with heq | htl
      · injection heq with h1 h2
        subst h1
        subst h2
        simp [alGet]
      · have hne : k0 ≠ k := by
          intro hk
          subst hk
          exact hnd2.1 (List.mem_map_of_mem Prod.fst htl)
        simp [alGet, hne, ih hnd2.2 htl]

theorem alGet_eq_none_of_not_mem {α : Type} (l : List (String × α))
    (k : String) (h : k ∉ alKeys l) : alGet l k = none := by
  induction l with
  | nil => rfl
  | cons hd tl ih =>
      obtain ⟨k0, v0⟩ := hd
      have h2 : k0 ≠ k ∧ k ∉ alKeys tl := by
        constructor
        · intro hk
          exact h (by simp [alKeys, hk])
        · intro hk
          exact h (by simp [alKeys]; right; simpa [alKeys] using hk)
      simp [alGet, h2.1, ih h2.2]

/-! ## Claim theorems -/

/-- Claim C2 (code_bug): the spec requires `getWeekKey` to produce the
ISO-8601 week identifier, with Dec 31, 2024 (a Tuesday) mapping to
`2025-W01`.  The source's `getWeekKey` instead uses the
January-1-anchored count `Math.ceil((dayOfYear + jan1Weekday + 1) / 7)` and
maps that date to `2024-W53`; the repository's own review notes
(temp_implement.md, item 3) flag exactly this as a defect.  This theorem
evaluates the code at the failing input next to the spec-modelled ISO key. -/
theorem getWeekKey_dec31_2024_diverges_from_iso :
    getWeekKey ⟨2024, 12, 31, 0⟩ = "2024-W53" ∧
    isoWeekKey ⟨2024, 12, 31, 0⟩ = "2025-W01" ∧
    getWeekKey ⟨2024, 12, 31, 0⟩ ≠ isoWeekKey ⟨2024, 12, 31, 0⟩ := by
  refine ⟨by decide, by decide, by decide⟩

/-- Claim C1, counterexample: the claimed resolution chain says that with no
user-configured price and a cached catalog entry
`{prompt: 0.000002, completion: 0.000004}` the resolver returns
`{in: 2, out: 4}`.  The source's `getModelPrice` consults no catalog at all
(the OpenRouter auto-pricing of the design notes was proposed but never
implemented) and returns the zero price there. -/
theorem getModelPrice_ignores_catalog_cx :
    getModelPrice [] "some-model" = ⟨0, 0⟩ ∧
    specGetPrice [] [("some-model", ⟨2 / 1000000, 4 / 1000000⟩)]
      "some-model" = ⟨2, 4⟩ ∧
    getModelPrice [] "some-model" ≠
      specGetPrice [] [("some-model", ⟨2 / 1000000, 4 / 1000000⟩)]
        "some-model" := by
  refine ⟨rfl, ?_, ?_⟩
  · show Price.mk ((2 / 1000000 : Rat) * 1000000) ((4 / 1000000 : Rat) * 1000000) = ⟨2, 4⟩
    norm_num
  · intro h
    rw [specGetPrice] at h
    simp [alGet, getModelPrice] at h

/-- Claim C1, amended: price resolution consults only the user-configured
`modelPrices` map — the entry itself when the key is present (authoritative),
and the zero price `{in: 0, out: 0}` otherwise; the external-catalog
fallback of the spec does not exist in the code. -/
theorem getModelPrice_user_or_zero (mp : List (String × Price))
    (m : String) :
    (∀ p, alGet mp m = some p → getModelPrice mp m = p) ∧
    (alGet mp m = none → getModelPrice mp m = ⟨0, 0⟩) := by
  constructor
  · intro p hp
    simp [getModelPrice, hp]
  · intro hn
    simp [getModelPrice, hn]

/-- Witness for `getModelPrice_user_or_zero` at concrete inputs: a configured
model resolves to its configured price, an unconfigured one to zero. -/
theorem getModelPrice_user_or_zero_witness :
    getModelPrice [("gpt-4o", ⟨5, 10⟩)] "gpt-4o" = ⟨5, 10⟩ ∧
    getModelPrice [("gpt-4o", ⟨5, 10⟩)] "claude-3-opus" = ⟨0, 0⟩ :=
  ⟨(getModelPrice_user_or_zero [("gpt-4o", ⟨5, 10⟩)] "gpt-4o").1 ⟨5, 10⟩
      (by decide),
   (getModelPrice_user_or_zero [("gpt-4o", ⟨5, 10⟩)] "claude-3-opus").2
      (by decide)⟩

/-- Claim C5 (confirmed): `resetSession` zeroes every counter field of the
session bucket — including `reasoning`, which the replacement object omits
and every read therefore coalesces to 0 — and installs a fresh session
`startTime`, while the all-time bucket, every keyed map, and the price and
color maps are left unchanged. -/
theorem resetSession_zeroes_session_preserves_rest (t : Nat) (s : Settings) :
    (resetSession t s).usage.session.input = 0 ∧
    (resetSession t s).usage.session.output = 0 ∧
    (resetSession t s).usage.session.reasoning = 0 ∧
    (resetSession t s).usage.session.total = 0 ∧
    (resetSession t s).usage.session.messageCount = 0 ∧
    (resetSession t s).usage.sessionStart = t ∧
    (resetSession t s).usage.allTime = s.usage.allTime ∧
    (resetSession t s).usage.byDay = s.usage.byDay ∧
    (resetSession t s).usage.byHour = s.usage.byHour ∧
    (resetSession t s).usage.byWeek = s.usage.byWeek ∧
    (resetSession t s).usage.byMonth = s.usage.byMonth ∧
    (resetSession t s).usage.byChat = s.usage.byChat ∧
    (resetSession t s).usage.byModel = s.usage.byModel ∧
    (resetSession t s).usage.bySource = s.usage.bySource ∧
    (resetSession t s).modelPrices = s.modelPrices ∧
    (resetSession t s).modelColors = s.modelColors := by
  refine ⟨rfl, rfl, rfl, rfl, rfl, rfl, rfl, rfl, rfl, rfl, rfl, rfl, rfl,
    rfl, rfl, rfl⟩

/-- Claim C10 (confirmed): a `recordUsage` call with null `chatId`,
`modelId` and `sourceId` (as the quiet/background flush paths issue) leaves
`byChat`, `byModel` and `bySource` untouched, updates the day/hour buckets
by `addTokens` alone — which preserves the nested per-model and per-source
breakdowns — and still updates session, allTime and the week/month buckets
additively. -/
theorem recordUsage_null_ids_frame (i o r : Nat) (now : DateParts)
    (s : Settings) :
    (recordUsage i o none none none r now s).usage.byChat
        = s.usage.byChat ∧
    (recordUsage i o none none none r now s).usage.byModel
        = s.usage.byModel ∧
    (recordUsage i o none none none r now s).usage.bySource
        = s.usage.bySource ∧
    (recordUsage i o none none none r now s).usage.session
        = addTokens s.usage.session i o r ∧
    (recordUsage i o none none none r now s).usage.allTime
        = addTokens s.usage.allTime i o r ∧
    (recordUsage i o none none none r now s).usage.byDay
        = alSet s.usage.byDay (getDayKey now)
            (addTokens ((alGet s.usage.byDay (getDayKey now)).getD
              Bucket.zero) i o r) ∧
    (recordUsage i o none none none r now s).usage.byHour
        = alSet s.usage.byHour (getHourKey now)
            (addTokens ((alGet s.usage.byHour (getHourKey now)).getD
              Bucket.zero) i o r) ∧
    (recordUsage i o none none none r now s).usage.byWeek
        = alSet s.usage.byWeek (getWeekKey now)
            (addTokens ((alGet s.usage.byWeek (getWeekKey now)).getD
              Bucket.zero) i o r) ∧
    (recordUsage i o none none none r now s).usage.byMonth
        = alSet s.usage.byMonth (getMonthKey now)
            (addTokens ((alGet s.usage.byMonth (getMonthKey now)).getD
              Bucket.zero) i o r) ∧
    (∀ b : Bucket, (addTokens b i o r).models = b.models ∧
      (addTokens b i o r).sources = b.sources) ∧
    (∀ b : Bucket, (addTokens b i o r).total = b.total + (i + o + r) ∧
      (addTokens b i o r).messageCount = b.messageCount + 1) := by
  refine ⟨rfl, rfl, rfl, rfl, rfl, rfl, rfl, rfl, rfl,
    fun b => ⟨rfl, rfl⟩, fun b => ⟨rfl, rfl⟩⟩

theorem recordUsage_allTime_total (i o : Nat)
    (chatId modelId sourceId : Option String) (r : Nat) (now : DateParts)
    (s : Settings) :
    (recordUsage i o chatId modelId sourceId r now s).usage.allTime.total
      = s.usage.allTime.total + (i + o + r) := by
  cases chatId <;> cases modelId <;> cases sourceId <;> rfl

theorem applyCalls_allTime_total (calls : List RecordCall) (s : Settings) :
    (applyCalls calls s).usage.allTime.total
      = s.usage.allTime.total
        + (calls.map fun c => c.input + c.output + c.reasoning).sum := by
  induction calls generalizing s with
  | nil => simp [applyCalls]
  | cons c rest ih =>
      have hstep : applyCalls (c :: rest) s
          = applyCalls rest (applyCall s c) := rfl
      rw [hstep, ih, applyCall, recordUsage_allTime_total]
      simp
      omega

/-- Claim C8 (confirmed): starting from the state produced by
`resetAllUsage`, after any sequence of `recordUsage` calls the all-time
bucket's `total` equals the sum of each call's total argument
`input + output + reasoning`; and `resetAllUsage` puts the whole usage tree
into its zero state. -/
theorem allTime_total_is_sum_of_calls (calls : List RecordCall) (t : Nat)
    (s : Settings) :
    (applyCalls calls (resetAllUsage t s)).usage.allTime.total
      = (calls.map fun c => c.input + c.output + c.reasoning).sum ∧
    (resetAllUsage t s).usage = Usage.zero t := by
  constructor
  · rw [applyCalls_allTime_total]
    show 0 + _ = _
    rw [Nat.zero_add]
  · rfl

/-- Claim C6 (confirmed): when a `continue`-type generation finalizes
through the message-received path with an in-flight input count, a non-empty
message carrying a pre-computed token count `post`, and a captured baseline
`b`, the single recorded output count is exactly the newly generated delta
floored at zero, `max 0 (post - b)` (for the §8 scenario `post = 620`,
`b = 500` this is 120, never 620). -/
theorem continue_records_delta
    (inputTokens post b countMes countReasoning : Nat) (mes : String)
    (hmes : mes ≠ "") (hpost : post ≠ 0) :
    handleMessageReceivedTokens (some ⟨mes, some post, none⟩) "continue"
      (some inputTokens) b countMes countReasoning
      = some (inputTokens, post - b, 0) ∧
    ((post - b : Nat) : Int) = max ((post : Int) - (b : Int)) 0 := by
  constructor
  · unfold handleMessageReceivedTokens
    simp [hmes, hpost]
    omega
  · omega

/-- Witness for `continue_records_delta`: the §8 continue-delta scenario —
message token count 620, captured baseline 500 — records output 120. -/
theorem continue_records_delta_witness :
    handleMessageReceivedTokens (some ⟨"x", some 620, none⟩) "continue"
      (some 300) 500 0 0 = some (300, 120, 0) ∧
    ((120 : Nat) : Int) = max ((620 : Int) - (500 : Int)) 0 :=
  continue_records_delta 300 620 500 0 0 "x" (by decide) (by decide)

/-- Claim C7 (confirmed): on a generation-stopped event with no in-flight
context the handler is a no-op; with an in-flight input count `n` and a
non-empty streaming buffer text (and no partial reasoning) it makes exactly
one `recordUsage` call `(n, countResult, ...)` — input the awaited pending
count, output the partial streamed output — and clears the in-flight
context, so a further stopped event records nothing. -/
theorem generationStopped_records_once (ctx : PendingCtx)
    (countResult countReasoning : Nat) (chatId : Option String) (t : String)
    (now : DateParts) (s : Settings) (ht : t ≠ "") :
    (ctx.pendingInput = none →
      handleGenerationStopped ctx (some ⟨some t, none⟩) countResult
        countReasoning chatId now s = (ctx, s, [])) ∧
    (∀ n, ctx.pendingInput = some n →
      handleGenerationStopped ctx (some ⟨some t, none⟩) countResult
          countReasoning chatId now s
        = (⟨none, none, none, 0⟩,
           applyCall s ⟨n, countResult, chatId, ctx.pendingModel,
             ctx.pendingSource, 0, now⟩,
           [⟨n, countResult, chatId, ctx.pendingModel, ctx.pendingSource,
             0, now⟩])) ∧
    (∀ stream2 c1 c2 chat2 now2 s2,
      handleGenerationStopped ⟨none, none, none, 0⟩ stream2 c1 c2 chat2
        now2 s2 = (⟨none, none, none, 0⟩, s2, [])) := by
  refine ⟨?_, ?_, ?_⟩
  · intro h
    unfold handleGenerationStopped
    rw [h]
  · intro n h
    unfold handleGenerationStopped
    rw [h]
    simp [ht]
  · intro stream2 c1 c2 chat2 now2 s2
    rfl

/-- Witness for `generationStopped_records_once`: the §8
stopped-generation scenario — 300 prompt tokens in flight, 45 partial output
tokens streamed — produces exactly one `record(300, 45, ...)` call and a
cleared context. -/
theorem generationStopped_records_once_witness :
    handleGenerationStopped ⟨some 300, some "gpt-4o", some "openai", 0⟩
        (some ⟨some "partial text", none⟩) 45 0 (some "chat1")
        ⟨2024, 12, 31, 5⟩ ⟨Usage.zero 0, [], []⟩
      = (⟨none, none, none, 0⟩,
         applyCall ⟨Usage.zero 0, [], []⟩
           ⟨300, 45, some "chat1", some "gpt-4o", some "openai", 0,
             ⟨2024, 12, 31, 5⟩⟩,
         [⟨300, 45, some "chat1", some "gpt-4o", some "openai", 0,
           ⟨2024, 12, 31, 5⟩⟩]) :=
  (generationStopped_records_once
      ⟨some 300, some "gpt-4o", some "openai", 0⟩ 45 0 (some "chat1")
      "partial text" ⟨2024, 12, 31, 5⟩ ⟨Usage.zero 0, [], []⟩
      (by decide)).2.1 300 rfl

/-- Claim C9 (confirmed): the background recursion guard
(`isTrackingBackground`) is false again when an instrumented call entered
with the guard clear finishes, on the success path and on every error path
(the reset sits in a `finally` block), for both
`handleBackgroundGeneration` and the patched `sendRequest`; and while the
guard is set, a nested instrumented call passes straight through — it
returns the original function's outcome, makes no `recordUsage` call and
leaves the store untouched. -/
theorem backgroundGuard_cleanup_and_passthrough {α : Type}
    (inputRes : Except String Nat) (origRes : Except String α)
    (outputRes : α → Except String Nat)
    (origReq : Except String (Option String)) (countContent : Option Nat)
    (modelId sourceId : Option String) (now : DateParts) (s : Settings) :
    (handleBackgroundGeneration false inputRes origRes outputRes modelId
        sourceId now s).1 = false ∧
    handleBackgroundGeneration true inputRes origRes outputRes modelId
        sourceId now s = (true, origRes, s, []) ∧
    (sendRequestTracked false inputRes origReq countContent modelId
        sourceId now s).1 = false ∧
    sendRequestTracked true inputRes origReq countContent modelId sourceId
        now s = (true, origReq, s, []) := by
  refine ⟨?_, rfl, ?_, rfl⟩
  · unfold handleBackgroundGeneration
    repeat' split
    all_goals try rfl
    all_goals (dsimp only; split <;> rfl)
  · unfold sendRequestTracked
    repeat' split
    all_goals try rfl
    all_goals (dsimp only; split <;> rfl)

theorem alGet_mergeBucketStep_ne (acc : List (String × Bucket))
    (kv : String × Bucket) (k : String) (hk : k ≠ kv.1) :
    alGet (mergeBucketStep acc kv) k = alGet acc k := by
  unfold mergeBucketStep
  cases h : alGet acc kv.1 <;> simp [h, alGet_alSet_ne _ _ _ _ hk]

theorem alGet_mergeBucketStep_self (acc : List (String × Bucket))
    (kv : String × Bucket) :
    alGet (mergeBucketStep acc kv) kv.1
      = some (match alGet acc kv.1 with
          | none => kv.2
          | some b => mergeAddCounters b kv.2) := by
  unfold mergeBucketStep
  cases h : alGet acc kv.1 <;> simp [h, alGet_alSet_self]

theorem alGet_mergeBucketMap (old inc : List (String × Bucket))
    (hnd : (alKeys inc).Nodup) (k : String) :
    alGet (mergeBucketMap old inc) k
      = match alGet inc k, alGet old k with
        | some v, some b => some (mergeAddCounters b v)
        | some v, none => some v
        | none, _ => alGet old k := by
  induction inc generalizing old with
  | nil =>
      cases h : alGet old k <;> simp [mergeBucketMap, alGet, h]
  | cons hd tl ih =>
      obtain ⟨k0, v0⟩ := hd
      have hnd2 : k0 ∉ tl.map Prod.fst ∧ (alKeys tl).Nodup := by
        simpa [alKeys] using hnd
      have hfold : mergeBucketMap old ((k0, v0) :: tl)
          = mergeBucketMap (mergeBucketStep old (k0, v0)) tl := rfl
      rw [hfold, ih _ hnd2.2]
      by_cases hk : k = k0
      · subst hk
        have htl : alGet tl k = none :=
          alGet_eq_none_of_not_mem tl k (by simpa [alKeys] using hnd2.1)
        have hself := alGet_mergeBucketStep_self old (k, v0)
        simp only [htl, alGet, if_pos rfl]
        rw [hself]
        cases h : alGet old k <;> simp [h]
      · have hk0 : k0 ≠ k := Ne.symm hk
        have hcons : alGet ((k0, v0) :: tl) k = alGet tl k := by
          simp [alGet, hk0]
        rw [alGet_mergeBucketStep_ne old (k0, v0) k hk, hcons]

theorem assignAll_of_get_eq {α : Type} (target source : List (String × α))
    (h : ∀ kv ∈ source, alGet target kv.1 = some kv.2) :
    assignAll target source = target := by
  induction source with
  | nil => rfl
  | cons hd tl ih =>
      have hstep : assignAll target (hd :: tl)
          = assignAll (alSet target hd.1 hd.2) tl := rfl
      rw [hstep, alSet_of_get_eq _ _ _ (h hd (by simp))]
      exact ih fun kv hkv => h kv (by simp [hkv])

theorem assignAll_self {α : Type} (l : List (String × α))
    (hnd : (alKeys l).Nodup) : assignAll l l = l :=
  assignAll_of_get_eq l l fun kv hkv =>
    alGet_of_mem_nodup l kv.1 kv.2 hnd (by simpa using hkv)

/-- Claim C3 (code_bug): the spec's invariant
`total == input + output + reasoning` is enforced by `addTokens` on every
`recordUsage` write, but the `importUsageData` merge adds `input`, `output`,
`total` and `messageCount` of an incoming bucket without adding its
`reasoning` — while the added `total` does include the exporter's reasoning
tokens.  Importing the export of a store holding one exchange with one
reasoning token therefore yields a day bucket `{input: 2, output: 2,
reasoning: 1, total: 6}` with `2 + 2 + 1 ≠ 6`. -/
theorem import_merge_breaks_total_invariant :
    (alGet sampleRecorded.usage.byDay "2024-12-31").map
        (fun b => (b.input, b.output, b.reasoning, b.total))
      = some (1, 1, 1, 3) ∧
    (importedSelf sampleRecorded).map
        (fun s2 => (alGet s2.usage.byDay "2024-12-31").map
          (fun b => (b.input, b.output, b.reasoning, b.total)))
      = some (some (2, 2, 1, 6)) ∧
    (2 : Nat) + 2 + 1 ≠ 6 := by
  refine ⟨by decide, by decide, by decide⟩

/-- Claim C4, counterexample: the claim says every keyed map other than
session is additively merged on import — so re-importing a store's own
export would double the `byWeek` bucket and every `byDay` counter.  On the
concrete store holding one exchange (with one reasoning token), the import
leaves the `byWeek` total at 3 (the loop never visits `byWeek`) and the day
bucket's `reasoning` at 1 (the merge never adds `reasoning`), instead of
the doubled 6 and 2 the claim requires. -/
theorem import_merge_not_every_map_cx :
    (importedSelf sampleRecorded).map
        (fun s2 => (alGet s2.usage.byWeek "2024-W53").map Bucket.total)
      = some (some 3) ∧
    (alGet sampleRecorded.usage.byWeek "2024-W53").map Bucket.total
      = some 3 ∧
    (importedSelf sampleRecorded).map
        (fun s2 => (alGet s2.usage.byDay "2024-12-31").map Bucket.reasoning)
      = some (some 1) ∧
    (alGet sampleRecorded.usage.byDay "2024-12-31").map Bucket.reasoning
      = some 1 ∧
    (3 : Nat) ≠ 3 + 3 ∧
    (1 : Nat) ≠ 1 + 1 := by
  refine ⟨by decide, by decide, by decide, by decide, by decide, by decide⟩

/-- Claim C4, amended: importing a store's own export is accepted, never
touches `session`, `allTime`, `byWeek`, `byMonth`, `byChat`, `byModel` or
`bySource` (only `byDay` and `byHour` are merged), doubles the `input`,
`output`, `total` and `messageCount` counters of every existing `byDay` /
`byHour` key while leaving `reasoning` and the nested model/source
breakdowns at their existing values, and merges `modelPrices` /
`modelColors` by per-key overwrite — hence re-importing identical values
leaves them unchanged. -/
theorem importExport_roundTrip (s : Settings) (d : Nat)
    (hday : (alKeys s.usage.byDay).Nodup)
    (hhour : (alKeys s.usage.byHour).Nodup)
    (hp : (alKeys s.modelPrices).Nodup)
    (hc : (alKeys s.modelColors).Nodup) :
    importUsageData (exportUsageData s d) s
      = Except.ok (importMerge (exportUsageData s d) s) ∧
    (importMerge (exportUsageData s d) s).usage.session
      = s.usage.session ∧
    (importMerge (exportUsageData s d) s).usage.sessionStart
      = s.usage.sessionStart ∧
    (importMerge (exportUsageData s d) s).usage.allTime
      = s.usage.allTime ∧
    (importMerge (exportUsageData s d) s).usage.byWeek = s.usage.byWeek ∧
    (importMerge (exportUsageData s d) s).usage.byMonth = s.usage.byMonth ∧
    (importMerge (exportUsageData s d) s).usage.byChat = s.usage.byChat ∧
    (importMerge (exportUsageData s d) s).usage.byModel = s.usage.byModel ∧
    (importMerge (exportUsageData s d) s).usage.bySource
      = s.usage.bySource ∧
    (importMerge (exportUsageData s d) s).modelPrices = s.modelPrices ∧
    (importMerge (exportUsageData s d) s).modelColors = s.modelColors ∧
    (∀ k, alGet (importMerge (exportUsageData s d) s).usage.byDay k
        = (alGet s.usage.byDay k).map (fun b => mergeAddCounters b b)) ∧
    (∀ k, alGet (importMerge (exportUsageData s d) s).usage.byHour k
        = (alGet s.usage.byHour k).map (fun b => mergeAddCounters b b)) ∧
    (∀ b : Bucket, (mergeAddCounters b b).input = 2 * b.input ∧
      (mergeAddCounters b b).output = 2 * b.output ∧
      (mergeAddCounters b b).total = 2 * b.total ∧
      (mergeAddCounters b b).messageCount = 2 * b.messageCount ∧
      (mergeAddCounters b b).reasoning = b.reasoning ∧
      (mergeAddCounters b b).models = b.models ∧
      (mergeAddCounters b b).sources = b.sources) := by
  refine ⟨?_, rfl, rfl, rfl, rfl, rfl, rfl, rfl, rfl, ?_, ?_, ?_, ?_, ?_⟩
  · unfold importUsageData
    simp [exportUsageData, extensionName]
  · show assignAll s.modelPrices s.modelPrices = s.modelPrices
    exact assignAll_self s.modelPrices hp
  · show assignAll s.modelColors s.modelColors = s.modelColors
    exact assignAll_self s.modelColors hc
  · intro k
    show alGet (mergeBucketMap s.usage.byDay s.usage.byDay) k = _
    rw [alGet_mergeBucketMap s.usage.byDay s.usage.byDay hday k]
    cases hk : alGet s.usage.byDay k <;> simp [hk]
  · intro k
    show alGet (mergeBucketMap s.usage.byHour s.usage.byHour) k = _
    rw [alGet_mergeBucketMap s.usage.byHour s.usage.byHour hhour k]
    cases hk : alGet s.usage.byHour k <;> simp [hk]
  · intro b
    refine ⟨?_, ?_, ?_, ?_, rfl, rfl, rfl⟩ <;> simp [mergeAddCounters] <;>
      omega

/-- Witness for `importExport_roundTrip` on the concrete one-exchange store:
the hypotheses hold, the existing day key is doubled by the round trip, and
the price map is unchanged. -/
theorem importExport_roundTrip_witness :
    ((alKeys sampleRecorded.usage.byDay).Nodup ∧
     (alKeys sampleRecorded.usage.byHour).Nodup ∧
     (alKeys sampleRecorded.modelPrices).Nodup ∧
     (alKeys sampleRecorded.modelColors).Nodup) ∧
    alGet (importMerge (exportUsageData sampleRecorded 0)
        sampleRecorded).usage.byDay "2024-12-31"
      = (alGet sampleRecorded.usage.byDay "2024-12-31").map
          (fun b => mergeAddCounters b b) ∧
    (importMerge (exportUsageData sampleRecorded 0)
        sampleRecorded).modelPrices = sampleRecorded.modelPrices := by
  have h := importExport_roundTrip sampleRecorded 0 (by decide) (by decide)
    (by decide) (by decide)
  obtain ⟨h1, h2, h3, h4, h5, h6, h7, h8, h9, h10, h11, h12, h13, h14⟩ := h
  exact ⟨⟨by decide, by decide, by decide, by decide⟩, h12 "2024-12-31", h10⟩
